import Mathlib

/-!
Shallow embedding of the polycalc-api combat engine.

The definitions below are translated from src/units.rs and src/calc.rs.
Rust f32 values are modelled as rationals; the division in the damage
formula is total in this model (division by zero yields 0 in Lean),
whereas IEEE arithmetic yields infinity/NaN — theorems about the
degenerate-force case therefore only assert that the divisor is zero.
Rust panics (unwrap on None, the final unwrap of the optimiser) are
modelled by returning none. The u8 death counter wraps modulo 256,
matching release-mode wrapping arithmetic.
-/

namespace Polycalc

/-- Embedding of the Unit struct of src/units.rs (an actual unit instance).
The opaque display name is kept as a plain string. -/
structure Unit' where
  display_name : String
  max_health : ℚ
  health : ℚ
  attack : ℚ
  defence : ℚ
  defence_with_bonus : ℚ
  forced_retaliation : Option Bool
  can_freeze : Bool
  can_convert : Bool
  can_retaliate : Bool
  ranged : Bool
  veteran : Bool
  frozen : Bool
  converted : Bool
  deriving DecidableEq, Inhabited

/-- Embedding of the UnitType struct of src/units.rs (a catalog template). -/
structure UnitType where
  id : String
  display_name : String
  aliases : List String
  hidden : Bool
  health : ℚ
  attack : ℚ
  defence : ℚ
  range : ℕ
  abilities : List String
  deriving DecidableEq, Inhabited

def freezeAreaAbility : String := "freeze_area"

def convertAbility : String := "convert"

/-- Embedding of read_flag of src/units.rs. -/
def read_flag (flags : ℕ) (flag_num : ℕ) : Bool :=
  ((1 <<< flag_num) &&& flags) != 0

/-- Embedding of UnitType::create_unit of src/units.rs. -/
def UnitType.create_unit (t : UnitType) : Unit' :=
  { display_name := t.display_name
    max_health := t.health
    health := t.health
    attack := t.attack
    defence := t.defence
    defence_with_bonus := t.defence
    forced_retaliation := none
    can_retaliate := (t.attack != 0) && (t.defence != 0)
    can_freeze := t.abilities.contains freezeAreaAbility
    can_convert := t.abilities.contains convertAbility
    ranged := t.range > 1
    veteran := false
    frozen := false
    converted := false }

/-- Embedding of Unit::apply_bit_flags of src/units.rs. The source mutates
the unit in place; the model threads the updated record through lets. -/
def Unit'.apply_bit_flags (u0 : Unit') (flags : ℕ) : Unit' :=
  let u1 := if read_flag flags 0 then
      { u0 with defence_with_bonus := u0.defence_with_bonus * (4/5) } else u0
  let u2 := if read_flag flags 1 then
      { u1 with defence_with_bonus := u1.defence_with_bonus * (3/2) } else u1
  let u3 := if read_flag flags 2 then
      { u2 with defence_with_bonus := u2.defence_with_bonus * 4 } else u2
  let u4 := if read_flag flags 3 then
      { u3 with defence_with_bonus := u3.defence_with_bonus + (1/2) } else u3
  let u5 := { u4 with veteran := read_flag flags 4 }
  let u6 := if u5.veteran then { u5 with max_health := u5.max_health + 5 } else u5
  let u7 := { u6 with forced_retaliation :=
      if (read_flag flags 5) then some true
      else if (read_flag flags 6) then some false
      else none }
  { u7 with frozen := read_flag flags 7 }

/-- Embedding of Unit::is_better_than of src/units.rs. -/
def Unit'.is_better_than (self other : Unit') : Option Bool :=
  if self.health > other.health then some true
  else if other.health > self.health then some false
  else if (!self.frozen) && other.frozen then some true
  else if self.frozen && (!other.frozen) then some false
  else none

/-- Embedding of UnitTypeList::get_unit_by_id of src/units.rs; the catalog
list stands for the units field of the UnitTypeList singleton. -/
def get_unit_by_id : List UnitType → String → Option Unit'
  | [], _ => none
  | t :: rest, unit_id =>
    if t.id = unit_id then some t.create_unit else get_unit_by_id rest unit_id

/-- Embedding of the UnitInput struct of src/calc.rs. -/
structure UnitInput where
  unit : String
  health : Option ℚ
  flags : ℕ
  deriving DecidableEq, Inhabited

/-- Embedding of UnitInput::to_unit of src/calc.rs. The source unwraps the
catalog lookup and panics on an unknown id (TODO comment in the source);
the panic is modelled by propagating none. -/
def UnitInput.to_unit (input : UnitInput) (catalog : List UnitType) : Option Unit' :=
  match get_unit_by_id catalog input.unit with
  | none => none
  | some u0 =>
    let u1 := u0.apply_bit_flags input.flags
    some { u1 with health := input.health.getD u1.max_health }

/-- Embedding of the BattleState struct of src/calc.rs. -/
structure BattleState where
  attackers : List Unit'
  defender : Unit'
  deriving DecidableEq, Inhabited

/-- Embedding of BattleState::defender_is_better of src/calc.rs. -/
def BattleState.defender_is_better (self other : BattleState) : Option Bool :=
  let d := self.defender.is_better_than other.defender
  if self.defender.converted then
    if !other.defender.converted then some true
    else if d.isSome then d
    else none
  else
    if other.defender.converted then some false
    else match d with
      | some b => some (!b)
      | none => none

/-- Embedding of BattleState::count_dead of src/calc.rs. The counter is a
Rust u8, so each increment is taken modulo 256 (release-mode wrapping). -/
def BattleState.count_dead (self : BattleState) : ℕ :=
  self.attackers.foldl
    (fun count a => if a.health < 0 then (count + 1) % 256 else count) 0

/-- Embedding of BattleState::attackers_are_better of src/calc.rs. -/
def BattleState.attackers_are_better (self other : BattleState) : Bool :=
  let this_dead := self.count_dead
  let other_dead := other.count_dead
  if this_dead < other_dead then true
  else if other_dead < this_dead then false
  else false

/-- Embedding of BattleState::is_better_than of src/calc.rs. -/
def BattleState.is_better_than (self other : BattleState) : Bool :=
  match self.defender_is_better other with
  | some b => b
  | none => self.attackers_are_better other

/-- Embedding of check_retaliation of src/calc.rs. -/
def check_retaliation (attacker defender : Unit') : Bool :=
  if defender.frozen || defender.converted then false
  else if defender.health ≤ 0 then false
  else if !defender.can_retaliate then false
  else match attacker.forced_retaliation with
    | some b => b
    | none => match defender.forced_retaliation with
      | some b => b
      | none => (!attacker.ranged) || defender.ranged

/-- Attack force of the damage formula in attack of src/calc.rs. -/
def attack_force (attacker : Unit') : ℚ :=
  attacker.attack * (attacker.health / attacker.max_health)

/-- Defence force of the damage formula in attack of src/calc.rs. -/
def defence_force (defender : Unit') : ℚ :=
  defender.defence_with_bonus * (defender.health / defender.max_health)

/-- Total force of the damage formula in attack of src/calc.rs. In the
rational model division by zero yields 0; in the source (f32) a zero
divisor yields infinity and then a NaN damage value. -/
def total_force (attacker defender : Unit') : ℚ :=
  (9/2) / (attack_force attacker + defence_force defender)

/-- Rounding of Rust f32::round: round half away from zero. -/
def roundHalfAwayFromZero (q : ℚ) : ℚ :=
  if 0 ≤ q then ((⌊q + 1/2⌋ : ℤ) : ℚ) else ((⌈q - 1/2⌉ : ℤ) : ℚ)

/-- Embedding of attack of src/calc.rs. The source mutates both units in
place; the model returns the pair (attacker, defender) after the call. -/
def attack (attacker defender : Unit') : Unit' × Unit' :=
  let damage := roundHalfAwayFromZero
    (attack_force attacker * attacker.attack * total_force attacker defender)
  let defender1 := { defender with health := defender.health - damage }
  if check_retaliation attacker defender1 then
    let retaliation_damage := roundHalfAwayFromZero
      (defence_force defender * defender1.defence * total_force attacker defender)
    ({ attacker with health := attacker.health - retaliation_damage }, defender1)
  else
    (attacker, defender1)

/-- Embedding of battle of src/calc.rs. -/
def battle (attacker defender : Unit') : Unit' × Unit' :=
  if defender.converted then
    (attacker, defender)
  else
    let (attacker1, defender1) :=
      if attacker.attack > 0 then attack attacker defender
      else (attacker, defender)
    let defender2 :=
      if attacker1.health > 0 then
        if attacker1.can_convert then { defender1 with converted := true }
        else if attacker1.can_freeze then { defender1 with frozen := true }
        else defender1
      else defender1
    (attacker1, defender2)

/-- Helper for battle_many: threads the defender through the attacker list,
collecting the post-battle attackers in order. -/
def battle_many_go : List Unit' → Unit' → List Unit' × Unit'
  | [], d => ([], d)
  | a :: rest, d =>
    let (a1, d1) := battle a d
    let (rest1, d2) := battle_many_go rest d1
    (a1 :: rest1, d2)

/-- Embedding of battle_many of src/calc.rs. -/
def battle_many (s : BattleState) : BattleState :=
  let (attackers, defender) := battle_many_go s.attackers s.defender
  { attackers := attackers, defender := defender }

/-- Embedding of the AttackerPermuter struct of src/calc.rs. -/
structure AttackerPermuter where
  order : List ℕ
  p : List ℕ
  i : ℕ
  n : ℕ
  deriving DecidableEq, Inhabited

/-- Swap of two positions of a list (Vec::swap in the source). -/
def listSwap (l : List ℕ) (a b : ℕ) : List ℕ :=
  (l.set a (l.getD b 0)).set b (l.getD a 0)

/-- Inner while loop of AttackerPermuter::next: while p[i] == 0, reset
p[i] to i and advance i. Fuel bounds the loop; in every state reachable
from attacker_permuatations the loop stops before the fuel runs out
because p[n] stays n (nonzero for n at least 1). -/
def fixup : ℕ → List ℕ → ℕ → List ℕ × ℕ
  | 0, p, i => (p, i)
  | fuel + 1, p, i =>
    if p.getD i 1 == 0 then fixup fuel (p.set i i) (i + 1) else (p, i)

/-- Embedding of AttackerPermuter::next of src/calc.rs (QuickPerm step).
Returns the yielded item (if any) together with the successor state. -/
def AttackerPermuter.next (s : AttackerPermuter) : Option (List ℕ) × AttackerPermuter :=
  if s.i ≥ s.n then (none, s)
  else
    let p1 := s.p.set s.i (s.p.getD s.i 0 - 1)
    let j := if s.i % 2 == 1 then p1.getD s.i 0 else 0
    let order1 := listSwap s.order j s.i
    let (p2, i2) := fixup (p1.length + 1) p1 1
    (some order1, { s with order := order1, p := p2, i := i2 })

/-- Embedding of attacker_permuatations of src/calc.rs (name kept from the
source, typo included). -/
def attacker_permuatations (num_attackers : ℕ) : AttackerPermuter :=
  { order := List.range num_attackers
    p := List.range (num_attackers + 1)
    i := 1
    n := num_attackers }

/-- Runs the permuter up to the given number of steps, collecting every
yielded ordering until the iterator returns none. -/
def permuterRun : ℕ → AttackerPermuter → List (List ℕ)
  | 0, _ => []
  | fuel + 1, s =>
    match s.next with
    | (none, _) => []
    | (some v, s1) => v :: permuterRun fuel s1

/-- Full yield sequence of attacker_permuatations n. Factorial fuel is
enough: the iterator is exhausted after n! - 1 yields. -/
def permuterYields (n : ℕ) : List (List ℕ) :=
  permuterRun (Nat.factorial n) (attacker_permuatations n)

/-- Embedding of optimise_battle of src/calc.rs. The source ends with
best_order.unwrap() and best_state.unwrap(), which panic when the
permutation iterator produced no ordering; the panic is modelled by
returning none. -/
def optimise_battle (state : BattleState) : Option (List ℕ × BattleState) :=
  (permuterYields state.attackers.length).foldl
    (fun best order =>
      let attackers := order.map (fun idx => state.attackers.getD idx default)
      let this_state := battle_many { attackers := attackers, defender := state.defender }
      let use_state :=
        match best with
        | some (_, best_state) => this_state.is_better_than best_state
        | none => true
      if use_state then some (order, this_state) else best)
    none

/-! Concrete units and states used to instantiate the theorems below. -/

def unitName : String := "unit"

/-- Base unit for concrete instantiations: a plain melee unit with full
health and no status flags. -/
def baseUnit : Unit' :=
  { display_name := unitName
    max_health := 10
    health := 10
    attack := 2
    defence := 2
    defence_with_bonus := 2
    forced_retaliation := none
    can_freeze := false
    can_convert := false
    can_retaliate := true
    ranged := false
    veteran := false
    frozen := false
    converted := false }

def degenAttacker : Unit' := { baseUnit with attack := 5, health := 0 }

def degenDefender : Unit' := { baseUnit with defence := 0, defence_with_bonus := 0 }

def warriorId : String := "warrior"

def dragonId : String := "dragon"

def warriorType : UnitType :=
  { id := warriorId
    display_name := warriorId
    aliases := []
    hidden := false
    health := 10
    attack := 2
    defence := 2
    range := 1
    abilities := [] }

def smallCatalog : List UnitType := [warriorType]

def unknownIdInput : UnitInput := { unit := dragonId, health := none, flags := 0 }

def convertedDefender : Unit' := { baseUnit with converted := true }

def emptyAttackersState : BattleState := { attackers := [], defender := baseUnit }

/-- Retaliation decision written following the wording of the spec
(section 4.1), stated for comparison with check_retaliation: the default
case reads "retaliation occurs unless the attacker is ranged and the
defender is not". -/
def shouldRetaliate (attacker defender : Unit') : Bool :=
  if defender.frozen || defender.converted then false
  else if defender.health ≤ 0 then false
  else if !defender.can_retaliate then false
  else match attacker.forced_retaliation with
    | some b => b
    | none => match defender.forced_retaliation with
      | some b => b
      | none => !(attacker.ranged && !defender.ranged)

/-! Claim theorems. -/

/-- C1: the claim says the enumerator produces exactly n-factorial distinct
orderings. In fact the QuickPerm port omits the initial yield, so for
n = 2 it produces the single ordering [1, 0] (not 2), for n = 3 it
produces five orderings (not 6) and never the identity ordering
[0, 1, 2], and for n = 0 it produces nothing. -/
theorem c1_permuter_drops_identity_ordering :
    permuterYields 2 = [[1, 0]] ∧
    (permuterYields 2).length ≠ Nat.factorial 2 ∧
    permuterYields 3 = [[1, 0, 2], [2, 0, 1], [0, 2, 1], [1, 2, 0], [2, 1, 0]] ∧
    (permuterYields 3).length ≠ Nat.factorial 3 ∧
    [0, 1, 2] ∉ permuterYields 3 ∧
    permuterYields 0 = [] := by decide

/-- C2: at an attacker with positive attack but zero health and a defender
with zero defence bonus, both forces of the damage formula are zero, so
the source divides 4.5 by zero with no special-case branch (in f32 this
yields infinity and then a NaN damage value); no explicit numeric policy
exists in attack. -/
theorem c2_degenerate_forces_divide_by_zero :
    attack_force degenAttacker = 0 ∧
    defence_force degenDefender = 0 ∧
    attack_force degenAttacker + defence_force degenDefender = 0 ∧
    degenAttacker.attack > 0 := by
  refine ⟨?_, ?_, ?_, ?_⟩ <;>
    norm_num [attack_force, defence_force, degenAttacker, degenDefender, baseUnit]

/-- C3: looking up an identifier absent from the catalog yields none, and
to_unit propagates it (the source instead unwraps the none and panics,
aborting the process, as its own TODO comment admits); the same catalog
does resolve a known identifier. -/
theorem c3_unknown_unit_id_aborts :
    get_unit_by_id smallCatalog dragonId = none ∧
    unknownIdInput.to_unit smallCatalog = none ∧
    (get_unit_by_id smallCatalog warriorId).isSome = true := by decide

/-- C5: check_retaliation decides in exactly the priority order the spec
states: frozen or converted defender, then non-positive defender health,
then a defender that cannot retaliate, then the attacker's forced value,
then the defender's forced value, then the ranged-attacker default. -/
theorem c5_check_retaliation_priority_order (attacker defender : Unit') :
    check_retaliation attacker defender = shouldRetaliate attacker defender := by
  simp only [check_retaliation, shouldRetaliate, Bool.not_and, Bool.not_not]

/-- C8: a battle against an already converted defender is a no-op: both
units come back exactly as they went in. -/
theorem c8_battle_converted_is_noop (attacker defender : Unit')
    (h : defender.converted = true) :
    battle attacker defender = (attacker, defender) := by
  simp [battle, h]

/-- C8 witness: the no-op path at a concrete converted defender. -/
theorem c8_witness :
    battle baseUnit convertedDefender = (baseUnit, convertedDefender) :=
  c8_battle_converted_is_noop baseUnit convertedDefender rfl

/-- C10: when the permutation enumerator yields no ordering, the optimiser
folds over an empty sequence, keeps no candidate, and reaches the final
unwrap of none — modelled as the none result, standing for the panic. -/
theorem c10_optimise_battle_empty_enumeration_panics (s : BattleState)
    (h : permuterYields s.attackers.length = []) :
    optimise_battle s = none := by
  unfold optimise_battle
  rw [h]
  rfl

/-- C10 witness: the empty attacker list produces no orderings, so the
optimiser panics (none in the model). -/
theorem c10_witness :
    permuterYields emptyAttackersState.attackers.length = [] ∧
    optimise_battle emptyAttackersState = none :=
  ⟨by decide, c10_optimise_battle_empty_enumeration_panics emptyAttackersState (by decide)⟩

/-- Retaliation never fires against a defender whose health is already
non-positive (second branch of check_retaliation). -/
lemma check_retaliation_nonpositive_health (attacker defender : Unit')
    (h : defender.health ≤ 0) : check_retaliation attacker defender = false := by
  simp [check_retaliation, h]

def exampleAttacker : Unit' := { baseUnit with attack := 5 }

def exampleDefender : Unit' := { baseUnit with defence := 5, defence_with_bonus := 5 }

/-- C4: the worked example. With the stated numeric fields, the attack
force is 5, the defence force is 5, the total force is 9/20 = 0.45, the
damage rounds 11.25 to 11, the defender ends on health -1, and neither
the attacker nor any other defender field changes (no retaliation fires,
whatever the range, forced-retaliation, or status flags are). -/
theorem c4_worked_example (attacker defender : Unit')
    (ha : attacker.attack = 5) (hah : attacker.health = 10)
    (ham : attacker.max_health = 10)
    (hdb : defender.defence_with_bonus = 5) (_hdd : defender.defence = 5)
    (hdh : defender.health = 10) (hdm : defender.max_health = 10) :
    attack_force attacker = 5 ∧
    defence_force defender = 5 ∧
    total_force attacker defender = 9/20 ∧
    roundHalfAwayFromZero
      (attack_force attacker * attacker.attack * total_force attacker defender) = 11 ∧
    attack attacker defender = (attacker, { defender with health := -1 }) := by
  have h1 : attack_force attacker = 5 := by
    rw [attack_force, ha, hah, ham]; norm_num
  have h2 : defence_force defender = 5 := by
    rw [defence_force, hdb, hdh, hdm]; norm_num
  have h3 : total_force attacker defender = 9/20 := by
    rw [total_force, h1, h2]; norm_num
  have h4 : roundHalfAwayFromZero
      (attack_force attacker * attacker.attack * total_force attacker defender) = 11 := by
    rw [h1, ha, h3, roundHalfAwayFromZero, if_pos (by norm_num : (0:ℚ) ≤ 5 * 5 * (9/20))]
    rw [show (5 : ℚ) * 5 * (9/20) + 1/2 = 47/4 by norm_num]
    rw [show ⌊(47/4 : ℚ)⌋ = 11 from Int.floor_eq_iff.mpr (by norm_num)]
    norm_num
  refine ⟨h1, h2, h3, h4, ?_⟩
  simp only [attack]
  rw [h4, hdh]
  rw [show ({ defender with health := 10 - 11 } : Unit')
      = { defender with health := -1 } from by norm_num]
  rw [check_retaliation_nonpositive_health attacker { defender with health := -1 }
    (by norm_num)]
  simp

/-- C4 witness: the worked example at a fully concrete attacker and
defender. -/
theorem c4_witness :
    attack_force exampleAttacker = 5 ∧
    defence_force exampleDefender = 5 ∧
    total_force exampleAttacker exampleDefender = 9/20 ∧
    roundHalfAwayFromZero
      (attack_force exampleAttacker * exampleAttacker.attack *
        total_force exampleAttacker exampleDefender) = 11 ∧
    attack exampleAttacker exampleDefender
      = (exampleAttacker, { exampleDefender with health := -1 }) :=
  c4_worked_example exampleAttacker exampleDefender rfl rfl rfl rfl rfl rfl rfl

/-- C6: the defender-preference table of the spec, and the fallback of the
overall comparison to the attacker-side comparison. -/
theorem c6_defender_preference_table (A B : BattleState) :
    (A.defender_is_better B =
      match A.defender.converted, B.defender.converted with
      | true, false => some true
      | false, true => some false
      | true, true => A.defender.is_better_than B.defender
      | false, false => Option.map (fun b => !b) (A.defender.is_better_than B.defender)) ∧
    A.is_better_than B = (A.defender_is_better B).getD (A.attackers_are_better B) := by
  constructor
  · unfold BattleState.defender_is_better
    cases hA : A.defender.converted <;> cases hB : B.defender.converted <;>
      cases hd : A.defender.is_better_than B.defender <;> simp [hA, hB, hd]
  · unfold BattleState.is_better_than
    cases hd : A.defender_is_better B <;> simp [hd]

/-- Number of attackers with strictly negative health, counted without the
u8 wraparound of the source counter. -/
def deadCount (s : BattleState) : ℕ :=
  s.attackers.countP (fun a => decide (a.health < 0))

/-- The foldl of count_dead computes the true death count modulo 256. -/
lemma count_dead_foldl (l : List Unit') (c : ℕ) (hc : c < 256) :
    l.foldl (fun count a => if a.health < 0 then (count + 1) % 256 else count) c
      = (c + l.countP (fun a => decide (a.health < 0))) % 256 := by
  induction l generalizing c with
  | nil => simpa using (Nat.mod_eq_of_lt hc).symm
  | cons x xs ih =>
    rw [List.foldl_cons, List.countP_cons]
    by_cases hx : x.health < 0
    · have hxd : decide (x.health < 0) = true := decide_eq_true hx
      rw [if_pos hx, ih ((c + 1) % 256) (Nat.mod_lt _ (by norm_num)), hxd]
      rw [Nat.mod_add_mod]
      have hone : (if (true = true) then (1 : ℕ) else 0) = 1 := rfl
      rw [hone]
      omega
    · have hxd : decide (x.health < 0) = false := decide_eq_false hx
      rw [if_neg hx, ih c hc, hxd]
      simp

/-- count_dead is the true death count reduced modulo 256. -/
lemma count_dead_eq_mod (s : BattleState) : s.count_dead = deadCount s % 256 := by
  unfold BattleState.count_dead deadCount
  simpa using count_dead_foldl s.attackers 0 (by norm_num)

def deadUnit : Unit' := { baseUnit with health := -1 }

def stateManyDead : BattleState :=
  { attackers := List.replicate 256 deadUnit, defender := baseUnit }

def stateOneDead : BattleState := { attackers := [deadUnit], defender := baseUnit }

/-- countP over a replicated list whose element satisfies the predicate
counts the full length. -/
lemma countP_replicate_of_pos (p : Unit' → Bool) (n : ℕ) (u : Unit')
    (h : p u = true) : (List.replicate n u).countP p = n := by
  induction n with
  | zero => rfl
  | succ k ih =>
    rw [List.replicate_succ, List.countP_cons, ih, h]
    simp

/-- C7 counterexample: with 256 dead attackers against 1 dead attacker the
u8 counter wraps to 0, so attackers_are_better returns true although the
first state has strictly more deaths — the claim, which says it returns
true only on strictly fewer deaths, fails at this input. -/
theorem c7_counterexample_u8_wraparound :
    deadCount stateManyDead = 256 ∧
    deadCount stateOneDead = 1 ∧
    ¬ deadCount stateManyDead < deadCount stateOneDead ∧
    stateManyDead.attackers_are_better stateOneDead = true := by
  have hp : decide (deadUnit.health < 0) = true := by
    norm_num [deadUnit, baseUnit]
  have hA : deadCount stateManyDead = 256 := by
    unfold deadCount stateManyDead
    exact countP_replicate_of_pos _ _ _ hp
  have hB : deadCount stateOneDead = 1 := by
    unfold deadCount stateOneDead
    rw [List.countP_cons, List.countP_nil, hp]
    rfl
  have hcdA : stateManyDead.count_dead = 0 := by
    simp [count_dead_eq_mod, hA]
  have hcdB : stateOneDead.count_dead = 1 := by
    simp [count_dead_eq_mod, hB]
  refine ⟨hA, hB, by omega, ?_⟩
  simp [BattleState.attackers_are_better, hcdA, hcdB]

/-- C7 (amended): attackers_are_better compares the death counts reduced
modulo 256 (the u8 counter wraps): true on strictly smaller reduced
count, false on strictly larger, and false on a tie, deterministically
favouring the second argument with no error. -/
theorem c7_attackers_are_better_mod256 (A B : BattleState) :
    A.attackers_are_better B = decide (deadCount A % 256 < deadCount B % 256) := by
  unfold BattleState.attackers_are_better
  rw [count_dead_eq_mod, count_dead_eq_mod]
  rcases Nat.lt_trichotomy (deadCount A % 256) (deadCount B % 256) with h | h | h
  · simp [h]
  · simp [h]
  · simp [h, Nat.lt_asymm h, Nat.not_lt_of_lt h]

def healthierUnit : Unit' := { baseUnit with health := 12 }

/-- C9: unit comparison is antisymmetric where determinate, and
indeterminate exactly when both the health values and the frozen flags
agree. -/
theorem c9_unit_is_better_antisymm (a b : Unit') :
    (a.is_better_than b = some true → b.is_better_than a = some false) ∧
    (a.is_better_than b = none ↔ a.health = b.health ∧ a.frozen = b.frozen) := by
  unfold Unit'.is_better_than
  rcases lt_trichotomy a.health b.health with h | h | h
  · simp [gt_iff_lt, h, lt_asymm h, h.ne]
  · rw [h]
    cases haf : a.frozen <;> cases hbf : b.frozen <;> simp [haf, hbf]
  · simp [gt_iff_lt, h, lt_asymm h, h.ne']

/-- C9 witness: a concrete determinate pair, with the reverse comparison
obtained from the antisymmetry theorem. -/
theorem c9_witness :
    healthierUnit.is_better_than baseUnit = some true ∧
    baseUnit.is_better_than healthierUnit = some false :=
  ⟨by decide, (c9_unit_is_better_antisymm healthierUnit baseUnit).1 (by decide)⟩

end Polycalc
